import Mathlib

/-!
Verification of the usvgui_v3 mission model (src/unnamed/part_006).

The TypeScript module defines a MAVLink-style mission data model for a USV
(unmanned surface vehicle) and four pure operations over it:
`createEmptyMission`, `createWaypoint`, `addWaypointToMission` and
`missionToMavlinkFormat`.  This file is a shallow embedding of those
definitions: TypeScript `number` fields are modelled as `ℚ` (the code only
stores and copies them, never doing lossy float arithmetic), timestamps
(`new Date().toISOString()`) become an explicit `now : String` argument,
and object spreads become functional record updates — the source never
assigns into its inputs, so the pure embedding is faithful.
-/

namespace USVGui

/-- MAVLink command type enum from the source (`MavCmd`), with its wire
numeric values captured by `MavCmd.value`. -/
inductive MavCmd where
  | MAV_CMD_NAV_WAYPOINT
  | MAV_CMD_NAV_LOITER_UNLIM
  | MAV_CMD_NAV_LOITER_TURNS
  | MAV_CMD_NAV_LOITER_TIME
  | MAV_CMD_NAV_RETURN_TO_LAUNCH
  deriving DecidableEq, Repr

/-- Numeric values of the `MavCmd` enum members in the source. -/
def MavCmd.value : MavCmd → Nat
  | .MAV_CMD_NAV_WAYPOINT => 16
  | .MAV_CMD_NAV_LOITER_UNLIM => 17
  | .MAV_CMD_NAV_LOITER_TURNS => 18
  | .MAV_CMD_NAV_LOITER_TIME => 19
  | .MAV_CMD_NAV_RETURN_TO_LAUNCH => 20

/-- MAVLink coordinate frame enum from the source (`MavFrame`). -/
inductive MavFrame where
  | MAV_FRAME_GLOBAL
  | MAV_FRAME_GLOBAL_RELATIVE_ALT
  deriving DecidableEq, Repr

/-- Numeric values of the `MavFrame` enum members in the source. -/
def MavFrame.value : MavFrame → Nat
  | .MAV_FRAME_GLOBAL => 0
  | .MAV_FRAME_GLOBAL_RELATIVE_ALT => 3

/-- The `Waypoint` interface: MAVLink MISSION_ITEM format.  Field names use
MAVLink conventions (`x`/`y`/`z` rather than lat/lon/alt). -/
structure Waypoint where
  seq : ℚ
  frame : MavFrame
  command : MavCmd
  current : Bool
  autocontinue : Bool
  param1 : ℚ
  param2 : ℚ
  param3 : ℚ
  param4 : ℚ
  x : ℚ
  y : ℚ
  z : ℚ
  deriving DecidableEq, Repr

/-- The `MissionMetadata` interface. -/
structure MissionMetadata where
  name : String
  createdAt : String
  updatedAt : String
  deriving DecidableEq, Repr

/-- The `Mission` interface. -/
structure Mission where
  waypoints : List Waypoint
  currentWaypointIndex : ℚ
  metadata : MissionMetadata
  deriving DecidableEq, Repr

/-- `createEmptyMission()` from the source; `now` stands for the value of
`new Date().toISOString()` taken at the call. -/
def createEmptyMission (now : String) : Mission :=
  { waypoints := []
    currentWaypointIndex := 0
    metadata :=
      { name := "USV Mission"
        createdAt := now
        updatedAt := now } }

/-- `createWaypoint(seq, lat, lon)` from the source: ArduRover defaults,
`x` is latitude and `y` is longitude (MAVLink convention). -/
def createWaypoint (seq lat lon : ℚ) : Waypoint :=
  { seq := seq
    frame := .MAV_FRAME_GLOBAL_RELATIVE_ALT
    command := .MAV_CMD_NAV_WAYPOINT
    current := false
    autocontinue := true
    param1 := 0
    param2 := 2
    param3 := 0
    param4 := 0
    x := lat
    y := lon
    z := 0 }

/-- `addWaypointToMission(mission, lat, lon)` from the source; `now` stands
for the `new Date().toISOString()` taken inside the call.  The source builds
a brand-new object with spreads (`...mission`, `[...mission.waypoints, ...]`,
`...mission.metadata`) and never assigns into `mission`. -/
def addWaypointToMission (now : String) (mission : Mission) (lat lon : ℚ) :
    Mission :=
  let seq : ℚ := (mission.waypoints.length : ℚ)
  let newWaypoint := createWaypoint seq lat lon
  { mission with
    waypoints := mission.waypoints ++ [newWaypoint]
    metadata := { mission.metadata with updatedAt := now } }

/-- `missionToMavlinkFormat(mission)` from the source: maps each waypoint to
a shallow copy whose `current` is `idx === 0`. -/
def missionToMavlinkFormat (mission : Mission) : List Waypoint :=
  mission.waypoints.mapIdx fun idx wp => { wp with current := idx == 0 }

/-- One `addWaypointToMission` call described by its timestamp and the
latitude/longitude pair passed in. -/
def addCall (m : Mission) (c : String × ℚ × ℚ) : Mission :=
  addWaypointToMission c.1 m c.2.1 c.2.2

/-- A mission built by a sequence of `addWaypointToMission` calls starting
from `createEmptyMission()`. -/
def buildMission (now0 : String) (calls : List (String × ℚ × ℚ)) : Mission :=
  calls.foldl addCall (createEmptyMission now0)

/-- The waypoint list that a run of `addWaypointToMission` calls appends,
with sequence numbers starting at `start`. -/
def mkWps (start : Nat) : List (String × ℚ × ℚ) → List Waypoint
  | [] => []
  | c :: rest => createWaypoint (start : ℚ) c.2.1 c.2.2 :: mkWps (start + 1) rest

/-- Unfolding lemma: `addWaypointToMission` appends one `createWaypoint`
whose `seq` is the input's waypoint count. -/
lemma addWaypointToMission_waypoints (now : String) (m : Mission) (lat lon : ℚ) :
    (addWaypointToMission now m lat lon).waypoints
      = m.waypoints ++ [createWaypoint (m.waypoints.length : ℚ) lat lon] := rfl

lemma mkWps_length (start : Nat) (calls : List (String × ℚ × ℚ)) :
    (mkWps start calls).length = calls.length := by
  induction calls generalizing start with
  | nil => rfl
  | cons c rest ih => simp [mkWps, ih]

lemma mkWps_get (start : Nat) (calls : List (String × ℚ × ℚ)) (i : Nat)
    (h : i < (mkWps start calls).length) (h2 : i < calls.length) :
    (mkWps start calls).get ⟨i, h⟩
      = createWaypoint ((start + i : Nat) : ℚ) (calls.get ⟨i, h2⟩).2.1
          (calls.get ⟨i, h2⟩).2.2 := by
  induction calls generalizing start i with
  | nil => exact absurd h2 (Nat.not_lt_zero i)
  | cons c rest ih =>
    cases i with
    | zero => simp [mkWps]
    | succ j =>
      have hj : j < (mkWps (start + 1) rest).length := by
        simpa [mkWps] using h
      have hj2 : j < rest.length := by simpa using h2
      have := ih (start + 1) j hj hj2
      simpa [mkWps, Nat.add_assoc, Nat.add_comm 1 j] using this

/-- Folding `addCall` over a list of calls appends `mkWps` of those calls,
with sequence numbers starting at the accumulator's waypoint count. -/
lemma foldl_addCall_waypoints (calls : List (String × ℚ × ℚ)) (m : Mission) :
    (calls.foldl addCall m).waypoints
      = m.waypoints ++ mkWps m.waypoints.length calls := by
  induction calls generalizing m with
  | nil => simp [mkWps]
  | cons c rest ih =>
    have step : (addCall m c).waypoints
        = m.waypoints ++ [createWaypoint (m.waypoints.length : ℚ) c.2.1 c.2.2] := rfl
    calc ((c :: rest).foldl addCall m).waypoints
        = (rest.foldl addCall (addCall m c)).waypoints := rfl
      _ = (addCall m c).waypoints
            ++ mkWps (addCall m c).waypoints.length rest := ih (addCall m c)
      _ = m.waypoints ++ mkWps m.waypoints.length (c :: rest) := by
          rw [step]
          simp [mkWps, List.append_assoc]

/-- The waypoints of a mission built from empty are exactly `mkWps 0`. -/
lemma buildMission_waypoints (now0 : String) (calls : List (String × ℚ × ℚ)) :
    (buildMission now0 calls).waypoints = mkWps 0 calls :=
  (foldl_addCall_waypoints calls (createEmptyMission now0)).trans
    (List.nil_append _)

lemma missionToMavlinkFormat_length (m : Mission) :
    (missionToMavlinkFormat m).length = m.waypoints.length := by
  simp [missionToMavlinkFormat]

lemma missionToMavlinkFormat_get (m : Mission) (i : Nat)
    (h : i < (missionToMavlinkFormat m).length) (h2 : i < m.waypoints.length) :
    (missionToMavlinkFormat m).get ⟨i, h⟩
      = { m.waypoints.get ⟨i, h2⟩ with current := i == 0 } := by
  have hg :=
    List.get_mapIdx m.waypoints (fun idx wp => { wp with current := idx == 0 }) i h2
  exact hg

lemma buildMission_length (now0 : String) (calls : List (String × ℚ × ℚ)) :
    (buildMission now0 calls).waypoints.length = calls.length := by
  rw [buildMission_waypoints, mkWps_length]

lemma buildMission_get (now0 : String) (calls : List (String × ℚ × ℚ))
    (i : Nat) (h : i < (buildMission now0 calls).waypoints.length)
    (h2 : i < calls.length) :
    (buildMission now0 calls).waypoints.get ⟨i, h⟩
      = createWaypoint (i : ℚ) (calls.get ⟨i, h2⟩).2.1 (calls.get ⟨i, h2⟩).2.2 := by
  rw [List.get_of_eq (buildMission_waypoints now0 calls)]
  rw [mkWps_get 0 calls i (by
    rw [buildMission_waypoints] at h
    exact h) h2]
  simp

lemma mkWps_current_false (start : Nat) (calls : List (String × ℚ × ℚ))
    (wp : Waypoint) (hmem : wp ∈ mkWps start calls) : wp.current = false := by
  induction calls generalizing start with
  | nil => simp [mkWps] at hmem
  | cons c rest ih =>
    rcases (by simpa [mkWps] using hmem :
        wp = createWaypoint (start : ℚ) c.2.1 c.2.2 ∨ wp ∈ mkWps (start + 1) rest)
      with hwp | hwp
    · rw [hwp]; rfl
    · exact ih (start + 1) hwp

lemma countP_current_one (l : List Waypoint) (hne : l ≠ [])
    (hcur : ∀ i (h : i < l.length), (l.get ⟨i, h⟩).current = (i == 0)) :
    l.countP (fun wp => wp.current) = 1 := by
  cases l with
  | nil => exact absurd rfl hne
  | cons hd tl =>
    have h0 : hd.current = true := by simpa using hcur 0 (by simp)
    have htl0 : tl.countP (fun wp => wp.current) = 0 := by
      rw [List.countP_eq_zero]
      intro wp hwp
      obtain ⟨⟨j, hj⟩, hget⟩ := List.mem_iff_get.mp hwp
      have hj' : j + 1 < (hd :: tl).length := by simpa using Nat.succ_lt_succ hj
      have hc := hcur (j + 1) hj'
      have hcons : ((hd :: tl).get ⟨j + 1, hj'⟩) = tl.get ⟨j, hj⟩ := rfl
      rw [hcons, hget] at hc
      simp [hc]
    rw [List.countP_cons, htl0, h0]
    rfl

/- ===================== Bridge contract (upload) ===================== -/

/-- The `MissionUploadRequest` interface from the bridge contract. -/
structure MissionUploadRequest where
  mission : Mission
  setAsCurrent : Option Bool
  deriving DecidableEq, Repr

/-- The `MissionUploadResult` interface from the bridge contract; optional
TypeScript fields are modelled as `Option`. -/
structure MissionUploadResult where
  success : Bool
  acceptedWaypointCount : ℚ
  errorCode : Option ℚ
  errorMessage : Option String
  warnings : Option (List String)
  timestamp : String
  deriving DecidableEq, Repr

/-- Terminal protocol outcome of an upload attempt: positive MISSION_ACK
with an accepted count, negative MISSION_ACK with an error code, or no
acknowledgment before the bridge's deadline. -/
inductive UploadAck where
  | accepted (count : ℚ)
  | rejected (code : ℚ) (message : String)
  | timedOut
  deriving DecidableEq, Repr

/-- Modelled from the spec: the repository declares only the
`IBridgeService.uploadMission(request): Promise<MissionUploadResult>`
signature (src/unnamed/part_006); no implementation exists under src/.
The spec requires the promise to resolve — never reject — and on
protocol-level rejection or timeout to resolve with `success: false` and
populated `errorCode`/`errorMessage`.  The promise is modelled as a total
function of the request, the call time and the terminal protocol outcome
(`UploadAck`); resolution-not-rejection is exactly totality of this
function into `MissionUploadResult` (no exception codomain).  The timeout
error code and message follow the spec's reserved-convention freedom. -/
def uploadMission (now : String) ( _req : MissionUploadRequest)
    (ack : UploadAck) : MissionUploadResult :=
  match ack with
  | .accepted count =>
      { success := true
        acceptedWaypointCount := count
        errorCode := none
        errorMessage := none
        warnings := none
        timestamp := now }
  | .rejected code message =>
      { success := false
        acceptedWaypointCount := 0
        errorCode := some code
        errorMessage := some message
        warnings := none
        timestamp := now }
  | .timedOut =>
      { success := false
        acceptedWaypointCount := 0
        errorCode := some (-1)
        errorMessage := some "Mission upload timed out"
        warnings := none
        timestamp := now }

/- ===================== Claim theorems ===================== -/

/-- C1: a mission built by N sequential `addWaypointToMission` calls from
`createEmptyMission()` has `waypoints.length = N` and `waypoints[i].seq = i`
for every `i < N`. -/
theorem build_seq_contiguous (now0 : String) (calls : List (String × ℚ × ℚ)) :
    (buildMission now0 calls).waypoints.length = calls.length ∧
    ∀ i (h : i < (buildMission now0 calls).waypoints.length),
      ((buildMission now0 calls).waypoints.get ⟨i, h⟩).seq = (i : ℚ) := by
  refine ⟨buildMission_length now0 calls, fun i h => ?_⟩
  have h2 : i < calls.length := by rwa [buildMission_length] at h
  rw [buildMission_get now0 calls i h h2]
  rfl

/-- Witness for C1 at a concrete two-call build: the waypoint at index 1
has `seq = 1`. -/
theorem build_seq_contiguous_witness :
    ((buildMission "t0" [("t1", 1, 2), ("t2", 3, 4)]).waypoints.get
        ⟨1, by decide⟩).seq = (1 : ℚ) :=
  (build_seq_contiguous "t0" [("t1", 1, 2), ("t2", 3, 4)]).2 1 (by decide)

/-- C2: `missionToMavlinkFormat` returns a list of the same length as the
input's waypoints; each element equals the corresponding input waypoint with
`current` replaced by `idx == 0` (so position 0 is `true`, all others
`false`, regardless of the stored `current` values).  The input mission is
untouched: the source maps to shallow copies and the embedding is pure. -/
theorem missionToMavlinkFormat_spec (m : Mission) :
    (missionToMavlinkFormat m).length = m.waypoints.length ∧
    (∀ i (h : i < (missionToMavlinkFormat m).length),
      ((missionToMavlinkFormat m).get ⟨i, h⟩).current = (i == 0)) ∧
    ∀ i (h : i < (missionToMavlinkFormat m).length)
        (h2 : i < m.waypoints.length),
      (missionToMavlinkFormat m).get ⟨i, h⟩
        = { m.waypoints.get ⟨i, h2⟩ with current := i == 0 } := by
  refine ⟨missionToMavlinkFormat_length m, fun i h => ?_, ?_⟩
  · have h2 : i < m.waypoints.length := by
      rwa [missionToMavlinkFormat_length] at h
    rw [missionToMavlinkFormat_get m i h h2]
  · intro i h h2
    exact missionToMavlinkFormat_get m i h h2

/-- Witness for C2 at a mission whose stored waypoint 0 has
`current = true`: position 1 of the output still gets `current = 1 == 0`,
i.e. `false`. -/
theorem missionToMavlinkFormat_spec_witness :
    ((missionToMavlinkFormat
        { waypoints := [{ createWaypoint 0 1 2 with current := true },
                        createWaypoint 1 3 4]
          currentWaypointIndex := 0
          metadata := { name := "n", createdAt := "c", updatedAt := "u" } }).get
      ⟨1, by decide⟩).current = (1 == 0) :=
  (missionToMavlinkFormat_spec
    { waypoints := [{ createWaypoint 0 1 2 with current := true },
                    createWaypoint 1 3 4]
      currentWaypointIndex := 0
      metadata := { name := "n", createdAt := "c", updatedAt := "u" } }).2.1
    1 (by decide)

/-- C3: for a non-empty mission obeying the documented seq-contiguity
invariant, the transient array from `missionToMavlinkFormat` has exactly one
element with `current = true`, and an element is `current = true` iff its
`seq` is 0.  Nothing is written back: the source builds fresh copies and the
embedding returns a new list, leaving the mission unchanged. -/
theorem mavlink_current_exactly_seq_zero (m : Mission)
    (hne : m.waypoints ≠ [])
    (hseq : ∀ i (h : i < m.waypoints.length),
      (m.waypoints.get ⟨i, h⟩).seq = (i : ℚ)) :
    (missionToMavlinkFormat m).countP (fun wp => wp.current) = 1 ∧
    ∀ i (h : i < (missionToMavlinkFormat m).length),
      ((missionToMavlinkFormat m).get ⟨i, h⟩).current = true
        ↔ ((missionToMavlinkFormat m).get ⟨i, h⟩).seq = 0 := by
  have hcur : ∀ i (h : i < (missionToMavlinkFormat m).length),
      ((missionToMavlinkFormat m).get ⟨i, h⟩).current = (i == 0) := by
    intro i h
    have h2 : i < m.waypoints.length := by
      rwa [missionToMavlinkFormat_length] at h
    rw [missionToMavlinkFormat_get m i h h2]
  have hne' : missionToMavlinkFormat m ≠ [] := by
    intro hnil
    apply hne
    have hlen := congrArg List.length hnil
    rw [missionToMavlinkFormat_length] at hlen
    exact List.length_eq_zero.mp hlen
  refine ⟨countP_current_one _ hne' hcur, fun i h => ?_⟩
  have h2 : i < m.waypoints.length := by
    rwa [missionToMavlinkFormat_length] at h
  have hseqi : ((missionToMavlinkFormat m).get ⟨i, h⟩).seq = (i : ℚ) := by
    rw [missionToMavlinkFormat_get m i h h2]
    exact hseq i h2
  rw [hcur i h, hseqi]
  simp

/-- Witness for C3 at a one-waypoint contiguous mission: exactly one output
element is marked current. -/
theorem mavlink_current_exactly_seq_zero_witness :
    (missionToMavlinkFormat
        { waypoints := [createWaypoint 0 5 6]
          currentWaypointIndex := 0
          metadata := { name := "n", createdAt := "c", updatedAt := "u" } }).countP
      (fun wp => wp.current) = 1 :=
  (mavlink_current_exactly_seq_zero
    { waypoints := [createWaypoint 0 5 6]
      currentWaypointIndex := 0
      metadata := { name := "n", createdAt := "c", updatedAt := "u" } }
    (by decide) (by decide)).1

/-- C4: `addWaypointToMission` returns a mission whose waypoints are the
input's followed by one new waypoint with `seq` equal to the input's
waypoint count; `metadata.updatedAt` becomes the call time while `name`,
`createdAt` and `currentWaypointIndex` are carried over.  The input is not
mutated: the source only spreads `mission`, `mission.waypoints` and
`mission.metadata` into fresh objects and the embedding is pure. -/
theorem addWaypointToMission_frame_conditions (now : String) (m : Mission)
    (lat lon : ℚ) :
    (addWaypointToMission now m lat lon).waypoints
      = m.waypoints ++ [createWaypoint (m.waypoints.length : ℚ) lat lon] ∧
    (createWaypoint (m.waypoints.length : ℚ) lat lon).seq
      = (m.waypoints.length : ℚ) ∧
    (addWaypointToMission now m lat lon).metadata.updatedAt = now ∧
    (addWaypointToMission now m lat lon).metadata.name = m.metadata.name ∧
    (addWaypointToMission now m lat lon).metadata.createdAt
      = m.metadata.createdAt ∧
    (addWaypointToMission now m lat lon).currentWaypointIndex
      = m.currentWaypointIndex :=
  ⟨rfl, rfl, rfl, rfl, rfl, rfl⟩

/-- C5: `createWaypoint(seq, lat, lon)` fixes frame, command, `current`,
`autocontinue`, the four params and `z` to the ArduRover defaults and passes
`seq`, `lat`, `lon` through unchanged into `seq`, `x`, `y`. -/
theorem createWaypoint_defaults (seq lat lon : ℚ) :
    (createWaypoint seq lat lon).frame
      = MavFrame.MAV_FRAME_GLOBAL_RELATIVE_ALT ∧
    (createWaypoint seq lat lon).command = MavCmd.MAV_CMD_NAV_WAYPOINT ∧
    (createWaypoint seq lat lon).current = false ∧
    (createWaypoint seq lat lon).autocontinue = true ∧
    (createWaypoint seq lat lon).param1 = 0 ∧
    (createWaypoint seq lat lon).param2 = 2 ∧
    (createWaypoint seq lat lon).param3 = 0 ∧
    (createWaypoint seq lat lon).param4 = 0 ∧
    (createWaypoint seq lat lon).z = 0 ∧
    (createWaypoint seq lat lon).seq = seq ∧
    (createWaypoint seq lat lon).x = lat ∧
    (createWaypoint seq lat lon).y = lon :=
  ⟨rfl, rfl, rfl, rfl, rfl, rfl, rfl, rfl, rfl, rfl, rfl, rfl⟩

/-- C6: building a mission from coordinate pairs stores `lat_i` in
`waypoints[i].x` and `lon_i` in `waypoints[i].y` (the MAVLink x=latitude,
y=longitude convention is preserved exactly). -/
theorem build_coords_roundtrip (now0 : String)
    (calls : List (String × ℚ × ℚ)) (i : Nat)
    (h : i < (buildMission now0 calls).waypoints.length)
    (h2 : i < calls.length) :
    ((buildMission now0 calls).waypoints.get ⟨i, h⟩).x = (calls.get ⟨i, h2⟩).2.1 ∧
    ((buildMission now0 calls).waypoints.get ⟨i, h⟩).y
      = (calls.get ⟨i, h2⟩).2.2 := by
  rw [buildMission_get now0 calls i h h2]
  exact ⟨rfl, rfl⟩

/-- Witness for C6 at one concrete call: `x` holds the latitude 15 and `y`
the longitude 73. -/
theorem build_coords_roundtrip_witness :
    ((buildMission "t0" [("t1", 15, 73)]).waypoints.get ⟨0, by decide⟩).x
      = (15 : ℚ) ∧
    ((buildMission "t0" [("t1", 15, 73)]).waypoints.get ⟨0, by decide⟩).y
      = (73 : ℚ) :=
  build_coords_roundtrip "t0" [("t1", 15, 73)] 0 (by decide) (by decide)

/-- C7: every waypoint of every mission reachable from
`createEmptyMission()` by `addWaypointToMission` calls has
`current = false`. -/
theorem build_current_false (now0 : String) (calls : List (String × ℚ × ℚ))
    (wp : Waypoint) (hmem : wp ∈ (buildMission now0 calls).waypoints) :
    wp.current = false := by
  rw [buildMission_waypoints] at hmem
  exact mkWps_current_false 0 calls wp hmem

/-- Witness for C7: the single waypoint of a one-call build has
`current = false`. -/
theorem build_current_false_witness :
    (createWaypoint 0 1 2).current = false :=
  build_current_false "t0" [("t1", 1, 2)] (createWaypoint 0 1 2) (by decide)

/-- C8: the modelled `uploadMission` always yields a `MissionUploadResult`
(totality = resolves, never rejects), and whenever the protocol outcome is
not a positive acknowledgment — rejection or timeout — the result has
`success = false` with `errorCode` and `errorMessage` populated. -/
theorem uploadMission_resolves_failure (now : String)
    (req : MissionUploadRequest) (ack : UploadAck)
    (hfail : ∀ c, ack ≠ UploadAck.accepted c) :
    (uploadMission now req ack).success = false ∧
    (uploadMission now req ack).errorCode.isSome = true ∧
    (uploadMission now req ack).errorMessage.isSome = true := by
  cases ack with
  | accepted c => exact absurd rfl (hfail c)
  | rejected code message => exact ⟨rfl, rfl, rfl⟩
  | timedOut => exact ⟨rfl, rfl, rfl⟩

/-- Witness for C8 at a concrete timed-out upload: `success = false`. -/
theorem uploadMission_resolves_failure_witness :
    (uploadMission "t"
        { mission := createEmptyMission "t", setAsCurrent := none }
        UploadAck.timedOut).success = false :=
  (uploadMission_resolves_failure "t"
    { mission := createEmptyMission "t", setAsCurrent := none }
    UploadAck.timedOut (fun _ h => UploadAck.noConfusion h)).1

/-- C9: the four mission-model operations are total Lean functions (they
are plain `def`s with no `Option`/`Except` codomain, mirroring the
exception-free TypeScript); in particular `missionToMavlinkFormat` of the
empty mission is the empty list rather than a failure. -/
theorem missionModel_total_on_empty (now : String) :
    (createEmptyMission now).waypoints = [] ∧
    missionToMavlinkFormat (createEmptyMission now) = [] :=
  ⟨rfl, by simp [missionToMavlinkFormat, createEmptyMission]⟩

/-- C10: `addWaypointToMission` preserves the existing waypoints in its
result: the output has one more waypoint and agrees with the input
structurally at every index below the input's length. -/
theorem addWaypointToMission_preserves_existing (now : String) (m : Mission)
    (lat lon : ℚ) :
    (addWaypointToMission now m lat lon).waypoints.length
      = m.waypoints.length + 1 ∧
    ∀ i (h : i < m.waypoints.length)
        (h2 : i < (addWaypointToMission now m lat lon).waypoints.length),
      (addWaypointToMission now m lat lon).waypoints.get ⟨i, h2⟩
        = m.waypoints.get ⟨i, h⟩ := by
  constructor
  · rw [addWaypointToMission_waypoints]; simp
  · intro i h h2
    rw [List.get_of_eq (addWaypointToMission_waypoints now m lat lon)]
    simp only [List.get_eq_getElem]
    exact List.getElem_append_left h

/-- Witness for C10 at a one-waypoint mission: index 0 is unchanged by the
append. -/
theorem addWaypointToMission_preserves_existing_witness :
    (addWaypointToMission "t1"
        { waypoints := [createWaypoint 0 1 2]
          currentWaypointIndex := 0
          metadata := { name := "n", createdAt := "c", updatedAt := "u" } }
        3 4).waypoints.get ⟨0, by decide⟩
      = createWaypoint 0 1 2 :=
  (addWaypointToMission_preserves_existing "t1"
    { waypoints := [createWaypoint 0 1 2]
      currentWaypointIndex := 0
      metadata := { name := "n", createdAt := "c", updatedAt := "u" } }
    3 4).2 0 (by decide) (by decide)

end USVGui
